import Mathlib

/-!
Verification of the broadband replace-and-archive workflow (`update_bb.py`).

The script exposes three operations:
* `speedcode` — pure classifier from a download speed to a Utah speed-tier code;
* `archive_provider` — copies a provider's current rows, extended with a data
  round and speed-tier code, into an archive feature class;
* `update_features` — validates the provider of a new feature class against the
  live feature class, optionally archives, deletes the provider's live rows and
  appends the new rows.

The embedding models feature classes as lists of rows, arcpy cursor loops as
structural recursions, and Python exceptions as an `Option UpdateError`
returned next to the state that was reached when the exception was raised
(the stores are mutated in place, so a raised exception leaves their current
contents behind).  Two arcpy API misuses of the source are modelled
faithfully: line 82 calls `insertRow` on an `arcpy.da.UpdateCursor`, a method
that cursor class does not have, so the first archived row raises
`AttributeError`; and line 157 passes the where string in the delete cursor's
`field_names` slot with no where clause, so the cursor constructor raises a
cannot-find-field error before deleting anything.  The identifier assigner
described by the specification has no code under `src/`; it is modelled from
the specification's words further below.
-/

namespace BroadbandUpdate

/-- A Python float as used by `speedcode`: either NaN or a finite value
(modelled as an exact rational; all four ordered comparisons against NaN are
false, as in IEEE-754 / Python). -/
inductive FloatVal where
  | nan : FloatVal
  | fin : ℚ → FloatVal
deriving DecidableEq, Repr

/-- Python `<=` on floats: false whenever an operand is NaN. -/
def fle : FloatVal → FloatVal → Prop
  | .fin x, .fin y => x ≤ y
  | _, _ => False

/-- Python `<` on floats: false whenever an operand is NaN. -/
def flt : FloatVal → FloatVal → Prop
  | .fin x, .fin y => x < y
  | _, _ => False

/-- Python `>=` on floats: false whenever an operand is NaN. -/
def fge : FloatVal → FloatVal → Prop
  | .fin x, .fin y => y ≤ x
  | _, _ => False

/-- Python `>` on floats: false whenever an operand is NaN. -/
def fgt : FloatVal → FloatVal → Prop
  | .fin x, .fin y => y < x
  | _, _ => False

instance : (a b : FloatVal) → Decidable (fle a b)
  | .fin x, .fin y => inferInstanceAs (Decidable (x ≤ y))
  | .nan, .nan => inferInstanceAs (Decidable False)
  | .nan, .fin _ => inferInstanceAs (Decidable False)
  | .fin _, .nan => inferInstanceAs (Decidable False)

instance : (a b : FloatVal) → Decidable (flt a b)
  | .fin x, .fin y => inferInstanceAs (Decidable (x < y))
  | .nan, .nan => inferInstanceAs (Decidable False)
  | .nan, .fin _ => inferInstanceAs (Decidable False)
  | .fin _, .nan => inferInstanceAs (Decidable False)

instance : (a b : FloatVal) → Decidable (fge a b)
  | .fin x, .fin y => inferInstanceAs (Decidable (y ≤ x))
  | .nan, .nan => inferInstanceAs (Decidable False)
  | .nan, .fin _ => inferInstanceAs (Decidable False)
  | .fin _, .nan => inferInstanceAs (Decidable False)

instance : (a b : FloatVal) → Decidable (fgt a b)
  | .fin x, .fin y => inferInstanceAs (Decidable (y < x))
  | .nan, .nan => inferInstanceAs (Decidable False)
  | .nan, .fin _ => inferInstanceAs (Decidable False)
  | .fin _, .nan => inferInstanceAs (Decidable False)

/-- Function `speedcode(down)` from `update_bb.py` lines 25-55: the Utah speed code
computed from the max advertised download rate in Mb/s.  The Python `else`
branch assigns `code = None`, modelled by `none`. -/
def speedcode (down : FloatVal) : Option String :=
  if fle down (.fin 0.2) then some "1"
  else if fgt down (.fin 0.2) ∧ flt down (.fin 0.768) then some "2"
  else if fge down (.fin 0.768) ∧ flt down (.fin 1.5) then some "3"
  else if fge down (.fin 1.5) ∧ flt down (.fin 3) then some "4"
  else if fge down (.fin 3) ∧ flt down (.fin 6) then some "5"
  else if fge down (.fin 6) ∧ flt down (.fin 10) then some "6"
  else if fge down (.fin 10) ∧ flt down (.fin 25) then some "7"
  else if fge down (.fin 25) ∧ flt down (.fin 50) then some "8"
  else if fge down (.fin 50) ∧ flt down (.fin 100) then some "9"
  else if fge down (.fin 100) ∧ flt down (.fin 1000) then some "10"
  else if fge down (.fin 1000) then some "11"
  else none

/-- The eleven tier codes of the breakpoint table. -/
def tierCodes : List String :=
  ["1", "2", "3", "4", "5", "6", "7", "8", "9", "10", "11"]

/-- On a finite value the comparison chain of `speedcode` collapses to plain
rational comparisons. -/
theorem speedcode_fin (q : ℚ) :
    speedcode (.fin q) =
      if q ≤ 0.2 then some "1"
      else if 0.2 < q ∧ q < 0.768 then some "2"
      else if 0.768 ≤ q ∧ q < 1.5 then some "3"
      else if 1.5 ≤ q ∧ q < 3 then some "4"
      else if 3 ≤ q ∧ q < 6 then some "5"
      else if 6 ≤ q ∧ q < 10 then some "6"
      else if 10 ≤ q ∧ q < 25 then some "7"
      else if 25 ≤ q ∧ q < 50 then some "8"
      else if 50 ≤ q ∧ q < 100 then some "9"
      else if 100 ≤ q ∧ q < 1000 then some "10"
      else if 1000 ≤ q then some "11"
      else none := rfl

set_option maxHeartbeats 1600000 in
/-- Claim C5: for every finite numeric input the speed-tier classifier returns
exactly one of the codes "1" through "11", and each boundary value of the
breakpoint table (0.2, 0.768, 1.5, 3, 6, 10, 25, 50, 100, 1000) maps to the
upper tier of the table, in particular `speedcode 0.2 = "1"`,
`speedcode 0.768 = "3"` and `speedcode 1000 = "11"`. -/
theorem speedcode_total_and_boundaries :
    (∀ q : ℚ, ∃ c ∈ tierCodes, speedcode (.fin q) = some c) ∧
    speedcode (.fin 0.2) = some "1" ∧
    speedcode (.fin 0.768) = some "3" ∧
    speedcode (.fin 1.5) = some "4" ∧
    speedcode (.fin 3) = some "5" ∧
    speedcode (.fin 6) = some "6" ∧
    speedcode (.fin 10) = some "7" ∧
    speedcode (.fin 25) = some "8" ∧
    speedcode (.fin 50) = some "9" ∧
    speedcode (.fin 100) = some "10" ∧
    speedcode (.fin 1000) = some "11" := by
  refine ⟨?_, by rw [speedcode_fin]; norm_num, by rw [speedcode_fin]; norm_num,
    by rw [speedcode_fin]; norm_num, by rw [speedcode_fin]; norm_num,
    by rw [speedcode_fin]; norm_num, by rw [speedcode_fin]; norm_num,
    by rw [speedcode_fin]; norm_num, by rw [speedcode_fin]; norm_num,
    by rw [speedcode_fin]; norm_num, by rw [speedcode_fin]; norm_num⟩
  intro q
  rw [speedcode_fin]
  split_ifs with h1 h2 h3 h4 h5 h6 h7 h8 h9 h10 h11
  · exact ⟨"1", by decide, rfl⟩
  · exact ⟨"2", by decide, rfl⟩
  · exact ⟨"3", by decide, rfl⟩
  · exact ⟨"4", by decide, rfl⟩
  · exact ⟨"5", by decide, rfl⟩
  · exact ⟨"6", by decide, rfl⟩
  · exact ⟨"7", by decide, rfl⟩
  · exact ⟨"8", by decide, rfl⟩
  · exact ⟨"9", by decide, rfl⟩
  · exact ⟨"10", by decide, rfl⟩
  · exact ⟨"11", by decide, rfl⟩
  · exfalso
    push_neg at h1 h2 h3 h4 h5 h6 h7 h8 h9 h10 h11
    have a2 : (0.768 : ℚ) ≤ q := h2 h1
    have a3 : (1.5 : ℚ) ≤ q := h3 a2
    have a4 : (3 : ℚ) ≤ q := h4 a3
    have a5 : (6 : ℚ) ≤ q := h5 a4
    have a6 : (10 : ℚ) ≤ q := h6 a5
    have a7 : (25 : ℚ) ≤ q := h7 a6
    have a8 : (50 : ℚ) ≤ q := h8 a7
    have a9 : (100 : ℚ) ≤ q := h9 a8
    have a10 : (1000 : ℚ) ≤ q := h10 a9
    linarith

/-- Claim C10: on the non-finite input NaN every comparison of the chain is
false, so `speedcode` falls through to the `else` branch and returns no tier
code at all (`None`) instead of raising or returning one of "1".."11". -/
theorem speedcode_nan_none : speedcode FloatVal.nan = none := by decide

/-- One row of a broadband feature class, with the attributes used by the
script (`SHAPE@`, `UTProvCode`, `TransTech`, `MAXADDOWN`, `MAXADUP`,
`LastEdit`, `LastVerified`, `Identifier`).  The geometry and the timestamps
are opaque to the script and are modelled by opaque scalars. -/
structure FeatureRow where
  shape : Nat
  utProvCode : String
  transTech : String
  maxADDown : FloatVal
  maxADUp : FloatVal
  lastEdit : String
  lastVerified : String
  identifier : String
deriving DecidableEq, Repr

/-- One row of the archive feature class: the eight transferred attributes plus
`DataRound` and `MAXADDNTIA` (the computed speed tier, which is Python `None`
when `speedcode` returns `None`). -/
structure ArchiveRow where
  shape : Nat
  utProvCode : String
  transTech : String
  maxADDown : FloatVal
  maxADUp : FloatVal
  lastEdit : String
  lastVerified : String
  identifier : String
  dataRound : String
  maxADDNTIA : Option String
deriving DecidableEq, Repr

/-- The `transfer_row` built inside `archive_provider` (lines 72-79): a copy of
the current row's eight attributes, with `data_round` and
`speedcode(MAXADDOWN)` appended. -/
def mkArchiveRow (data_round : String) (r : FeatureRow) : ArchiveRow :=
  { shape := r.shape
    utProvCode := r.utProvCode
    transTech := r.transTech
    maxADDown := r.maxADDown
    maxADUp := r.maxADUp
    lastEdit := r.lastEdit
    lastVerified := r.lastVerified
    identifier := r.identifier
    dataRound := data_round
    maxADDNTIA := speedcode r.maxADDown }

/-- The mutable geodatabase state a run operates on: the contents of the three
feature classes, the existence flags checked at the top of `update_features`,
and whether the scratch layer named `live` currently exists. -/
structure GdbState where
  newData : List FeatureRow
  current : List FeatureRow
  archive : List ArchiveRow
  newExists : Bool
  currentExists : Bool
  archiveExists : Bool
  liveLayerAllocated : Bool
deriving DecidableEq, Repr

/-- The exceptions a run can raise, in the order the corresponding statements
appear in `update_bb.py`: the three `ValueError`s of the existence checks,
the `StopIteration` escaping `next(name_cursor)` on an empty new feature
class, the `ValueError` of the provider validation, the `MakeFeatureLayer`
failure when a layer named `live` is left over from an earlier run, the
`AttributeError` of `archive_cursor.insertRow` on line 82 (the cursor is an
`arcpy.da.UpdateCursor`, which has no `insertRow` method), and the
cannot-find-field error of the delete-cursor construction on line 157 (the
where string is passed in the cursor's `field_names` slot). -/
inductive UpdateError where
  | missingNewFC : UpdateError
  | missingCurrentFC : UpdateError
  | missingArchiveFC : UpdateError
  | emptyNewData : UpdateError
  | unknownProvider : UpdateError
  | layerNameConflict : UpdateError
  | archiveInsertAttributeError : UpdateError
  | deleteCursorFieldError : UpdateError
deriving DecidableEq, Repr

/-- The outcome of a call to `archive_provider`: either the call returns,
carrying the Python return value, or it raises an exception. -/
inductive ArchiveOutcome where
  | returns : Option Nat → ArchiveOutcome
  | raises : UpdateError → ArchiveOutcome
deriving DecidableEq, Repr

/-- The cursor loop of `archive_provider` (lines 70-82): the search cursor —
correctly constructed, with the where clause in its third slot — yields each
current row matching `provider_field = provider` in order.  For the first
yielded row the body builds `transfer_row` (lines 74-79) and then calls
`archive_cursor.insertRow(transfer_row)` (line 82); `archive_cursor` is an
`arcpy.da.UpdateCursor` (line 70), which has no `insertRow` method, so that
call raises `AttributeError` before anything is inserted.  The result is the
exception the loop raises, if any; with no matching row the loop body never
runs and nothing is raised. -/
def archiveLoop (provider : String) (pf : FeatureRow → String)
    (data_round : String) : List FeatureRow → Option UpdateError
  | [] => none
  | r :: rest =>
    if pf r = provider then
      let _transfer := mkArchiveRow data_round r
      some .archiveInsertAttributeError
    else
      archiveLoop provider pf data_round rest

/-- Function `archive_provider` from `update_bb.py` lines 58-82.  The first
component is the state when the call ends — no store is ever written: the
broken `insertRow` raises at the first matching row, and with zero matching
rows the loop body never runs.  The second component is the outcome: with
zero matches the function falls off its end (it has no `return` statement)
and returns Python `None`; otherwise the `AttributeError` of line 82
propagates. -/
def archive_provider (provider : String) (pf : FeatureRow → String)
    (data_round : String) (st : GdbState) : GdbState × ArchiveOutcome :=
  match archiveLoop provider pf data_round st.current with
  | none => (st, .returns none)
  | some e => (st, .raises e)

/-- The provider scan of `update_features` (lines 128-132): walk the current
feature class and append each provider value not seen before to the
accumulator list. -/
def collectProviders (pf : FeatureRow → String) :
    List FeatureRow → List String → List String
  | [], providers => providers
  | r :: rest, providers =>
    if pf r ∈ providers then collectProviders pf rest providers
    else collectProviders pf rest (providers ++ [pf r])

/-- The delete step of `update_features` (lines 156-159).  Line 157
constructs `arcpy.da.UpdateCursor(current_data_fc, where)`: the where string
built on line 156 is passed in the cursor's second positional slot, which is
`field_names`, with no `where_clause` given (contrast the correct slot usage
on lines 70, 123 and 129).  No feature class has a field named by that
string, so the cursor constructor raises a cannot-find-field error before the
loop can run, and no row is ever deleted. -/
def deleteStep (_provider : String) (st : GdbState) :
    GdbState × Option UpdateError :=
  (st, some .deleteCursorFieldError)

/-- Function `update_features` from `update_bb.py` lines 86-175, with
`provider_field` modelled as the attribute selector `pf`.  Steps, in source
order: the three existence checks; reading the provider from the first row of
the new feature class (`StopIteration` when it has none); the
provider-validity scan; `MakeFeatureLayer` of the scratch layer `live` (which
fails when such a layer already exists, as the closing note of the source
describes); the optional `archive_provider` call, whose `AttributeError`
propagates when it raises; then the delete step, which raises the
cannot-find-field error of line 157.  The `Append` of line 163, the
`in_memory` cleanup and the `Delete_management(live_layer)` of lines 174-175
are unreachable: every run that gets past validation raises first.  The
second component is the exception the run raised; the first component is the
state reached at that point. -/
def update_features (pf : FeatureRow → String) (data_round : String)
    (archive : Bool) (st : GdbState) : GdbState × Option UpdateError :=
  if !st.newExists then (st, some .missingNewFC)
  else if !st.currentExists then (st, some .missingCurrentFC)
  else if archive && !st.archiveExists then (st, some .missingArchiveFC)
  else
    match st.newData with
    | [] => (st, some .emptyNewData)
    | r0 :: _ =>
      let provider := pf r0
      let providers := collectProviders pf st.current []
      if provider ∉ providers then (st, some .unknownProvider)
      else if st.liveLayerAllocated then (st, some .layerNameConflict)
      else
        let st1 := { st with liveLayerAllocated := true }
        if archive then
          match archive_provider provider pf data_round st1 with
          | (st2, .raises e) => (st2, some e)
          | (st2, .returns _) => deleteStep provider st2
        else
          deleteStep provider st1

/-- With no row matching the provider, the archive cursor loop never runs its
body and raises nothing. -/
theorem archiveLoop_none_of_no_match (provider : String)
    (pf : FeatureRow → String) (data_round : String) (l : List FeatureRow)
    (h : (l.filter fun r => pf r = provider) = []) :
    archiveLoop provider pf data_round l = none := by
  induction l with
  | nil => rfl
  | cons r rest ih =>
    by_cases hr : pf r = provider
    · simp [List.filter_cons, hr] at h
    · have h2 : (rest.filter fun r => pf r = provider) = [] := by
        simpa [List.filter_cons, hr] using h
      simp [archiveLoop, hr, ih h2]

/-- The provider scan collects a value exactly when it is already in the
accumulator or appears as the provider attribute of some row. -/
theorem mem_collectProviders (pf : FeatureRow → String) (l : List FeatureRow)
    (acc : List String) (x : String) :
    x ∈ collectProviders pf l acc ↔ x ∈ acc ∨ x ∈ l.map pf := by
  induction l generalizing acc with
  | nil => simp [collectProviders]
  | cons r rest ih =>
    by_cases h : pf r ∈ acc
    · rw [collectProviders, if_pos h, ih]
      simp only [List.map_cons, List.mem_cons]
      constructor
      · rintro (ha | hm)
        · exact Or.inl ha
        · exact Or.inr (Or.inr hm)
      · rintro (ha | heq | hm)
        · exact Or.inl ha
        · exact Or.inl (heq ▸ h)
        · exact Or.inr hm
    · rw [collectProviders, if_neg h, ih]
      simp only [List.mem_append, List.mem_singleton, List.map_cons,
        List.mem_cons]
      tauto

/-- A current-data row of provider `ProvA`. -/
def rowA1 : FeatureRow :=
  ⟨1, "ProvA", "Fiber", FloatVal.nan, FloatVal.nan, "2019-05-01", "2019-05-02", "{A1}"⟩

/-- A second current-data row of provider `ProvA`. -/
def rowA2 : FeatureRow :=
  ⟨2, "ProvA", "DSL", FloatVal.nan, FloatVal.nan, "2019-05-03", "2019-05-04", "{A2}"⟩

/-- A current-data row of provider `ProvB`. -/
def rowB : FeatureRow :=
  ⟨3, "ProvB", "Cable", FloatVal.nan, FloatVal.nan, "2019-05-05", "2019-05-06", "{B1}"⟩

/-- A new-data row of provider `ProvA`. -/
def newA1 : FeatureRow :=
  ⟨4, "ProvA", "Fiber", FloatVal.nan, FloatVal.nan, "2019-10-01", "2019-10-02", "{N1}"⟩

/-- A second new-data row of provider `ProvA`. -/
def newA2 : FeatureRow :=
  ⟨5, "ProvA", "Fixed Wireless", FloatVal.nan, FloatVal.nan, "2019-10-03", "2019-10-04", "{N2}"⟩

/-- A new-data row of provider `ProvC`, unknown to the current feature class. -/
def newC : FeatureRow :=
  ⟨6, "ProvC", "DSL", FloatVal.nan, FloatVal.nan, "2019-10-05", "2019-10-06", "{N3}"⟩

/-- A well-formed geodatabase state: current rows for `ProvA` and `ProvB`,
one new row for `ProvA`, an empty archive, all feature classes present. -/
def baseState : GdbState :=
  { newData := [newA1]
    current := [rowA1, rowB]
    archive := []
    newExists := true
    currentExists := true
    archiveExists := true
    liveLayerAllocated := false }

/-- Counterexample to claim C7: archiving a provider with zero matching rows
(`ProvC` has no rows in `baseState.current`) succeeds and leaves every store
as it was, but its return value is Python `None` — the function body of
`archive_provider` has no `return` statement — not the count `0` the claim
requires. -/
theorem archive_provider_no_count_cex :
    (archive_provider "ProvC" FeatureRow.utProvCode "Fall 2019" baseState).2 ≠
      ArchiveOutcome.returns (some 0) ∧
    (archive_provider "ProvC" FeatureRow.utProvCode "Fall 2019" baseState).2 =
      ArchiveOutcome.returns none ∧
    (archive_provider "ProvC" FeatureRow.utProvCode "Fall 2019" baseState).1 = baseState := by
  decide

/-- Claim C7 as amended: when zero rows of the current feature class match the
validated provider, `archive_provider` succeeds without error and without any
mutation — but it returns no count at all (Python `None`). -/
theorem archive_provider_zero_matches_returns_none (provider : String)
    (pf : FeatureRow → String) (data_round : String) (st : GdbState)
    (h : (st.current.filter fun r => pf r = provider) = []) :
    archive_provider provider pf data_round st = (st, ArchiveOutcome.returns none) := by
  unfold archive_provider
  rw [archiveLoop_none_of_no_match provider pf data_round st.current h]

/-- Witness for the amended claim C7, at a provider with zero matching rows. -/
theorem archive_provider_zero_matches_witness :
    ((baseState.current.filter fun r => FeatureRow.utProvCode r = "ProvC") = []) ∧
    archive_provider "ProvC" FeatureRow.utProvCode "Fall 2019" baseState =
      (baseState, ArchiveOutcome.returns none) :=
  ⟨by decide,
   archive_provider_zero_matches_returns_none "ProvC" FeatureRow.utProvCode
     "Fall 2019" baseState (by decide)⟩

/-- Claim C6, evaluated at its failing input: with a matching row present
(provider `ProvA` owns `rowA1` in `baseState.current`), `archive_provider`
raises the `AttributeError` of line 82 — `archive_cursor` is an
`arcpy.da.UpdateCursor` (line 70), which has no `insertRow` method — and
appends nothing: the archive and every other store are unchanged,
contradicting the one-append-per-matching-record behavior that the claim and
the source's own comment on line 81 describe. -/
theorem archive_provider_insert_raises :
    (archive_provider "ProvA" FeatureRow.utProvCode "Fall 2019" baseState).2 =
      ArchiveOutcome.raises UpdateError.archiveInsertAttributeError ∧
    (archive_provider "ProvA" FeatureRow.utProvCode "Fall 2019" baseState).1 =
      baseState := by
  decide

/-- Claim C2: when the candidate provider read from the first row of the new
feature class does not occur among the provider values of the current feature
class, the run raises the validation `ValueError` and the state — all three
stores — is exactly as before the run. -/
theorem update_features_rejects_unknown_provider (pf : FeatureRow → String)
    (data_round : String) (archive : Bool) (st : GdbState) (r0 : FeatureRow)
    (rest : List FeatureRow)
    (hne : st.newExists = true) (hce : st.currentExists = true)
    (hae : archive = true → st.archiveExists = true)
    (hnd : st.newData = r0 :: rest)
    (hbad : pf r0 ∉ st.current.map pf) :
    update_features pf data_round archive st = (st, some UpdateError.unknownProvider) := by
  have hmem : pf r0 ∉ collectProviders pf st.current [] := by
    rw [mem_collectProviders]
    simp [hbad]
  have hg : (archive && !st.archiveExists) = false := by
    cases archive with
    | false => rfl
    | true => simp [hae rfl]
  simp [update_features, hne, hce, hg, hnd, hmem]

/-- Witness for claim C2: a current feature class with providers `ProvA` and
`ProvB` and a new feature class whose provider is `ProvC`. -/
theorem update_features_rejects_unknown_provider_witness :
    update_features FeatureRow.utProvCode "Fall 2019" true
        { baseState with newData := [newC] } =
      ({ baseState with newData := [newC] }, some UpdateError.unknownProvider) :=
  update_features_rejects_unknown_provider FeatureRow.utProvCode "Fall 2019"
    true { baseState with newData := [newC] } newC [] rfl rfl (fun _ => rfl) rfl
    (by decide)

/-- Counterexample to claim C8: on a new feature class with zero rows the run
does not reach the replacement phase at all — `next(name_cursor)` raises
`StopIteration` while reading the candidate provider, and the provider's
prior rows are still in the current feature class afterwards. -/
theorem update_features_empty_new_cex :
    update_features FeatureRow.utProvCode "Fall 2019" true
        { baseState with newData := [] } =
      ({ baseState with newData := [] }, some UpdateError.emptyNewData) := by
  decide

/-- Claim C8 as amended: a run whose new feature class contains zero rows
fails while reading the candidate provider from its first row, before any
store mutation; the delete-then-append replacement is never reached. -/
theorem update_features_empty_new_fails (pf : FeatureRow → String)
    (data_round : String) (archive : Bool) (st : GdbState)
    (hne : st.newExists = true) (hce : st.currentExists = true)
    (hae : archive = true → st.archiveExists = true)
    (hnd : st.newData = []) :
    update_features pf data_round archive st = (st, some UpdateError.emptyNewData) := by
  have hg : (archive && !st.archiveExists) = false := by
    cases archive with
    | false => rfl
    | true => simp [hae rfl]
  simp [update_features, hne, hce, hg, hnd]

/-- Witness for the amended claim C8. -/
theorem update_features_empty_new_fails_witness :
    update_features FeatureRow.utProvCode "Spring 2019" false
        { baseState with newData := [] } =
      ({ baseState with newData := [] }, some UpdateError.emptyNewData) :=
  update_features_empty_new_fails FeatureRow.utProvCode "Spring 2019" false
    { baseState with newData := [] } rfl rfl (fun h => by cases h) rfl

/-- Claim C3, evaluated at its failing input: a validated, non-archiving run
over `baseState` reaches the delete phase and raises the cannot-find-field
error of line 157 — the where string built on line 156 sits in the
`field_names` slot of `arcpy.da.UpdateCursor`, with no where clause given —
so not a single row, of the validated provider or of any other, is ever
deleted, contrary to the provider-scoped delete the claim describes. -/
theorem delete_phase_raises_field_error :
    deleteStep "ProvA" { baseState with liveLayerAllocated := true } =
      ({ baseState with liveLayerAllocated := true },
        some UpdateError.deleteCursorFieldError) ∧
    (update_features FeatureRow.utProvCode "Fall 2019" false baseState).2 =
      some UpdateError.deleteCursorFieldError ∧
    (update_features FeatureRow.utProvCode "Fall 2019" false baseState).1.current =
      baseState.current := by
  decide

/-- Claim C9, evaluated at its failing inputs: both failures that the source
raises after `MakeFeatureLayer` created the scratch layer `live` — the
`AttributeError` of the archive insert on an archiving run, and the
cannot-find-field error of the delete-cursor construction on a non-archiving
run — end the run with the layer still allocated:
`Delete_management(live_layer)` (lines 174-175) is only reached on the
fall-through path, and the source has no try/finally. -/
theorem update_features_leaks_live_layer :
    (update_features FeatureRow.utProvCode "Fall 2019" true baseState).2 =
      some UpdateError.archiveInsertAttributeError ∧
    (update_features FeatureRow.utProvCode "Fall 2019" true
        baseState).1.liveLayerAllocated = true ∧
    (update_features FeatureRow.utProvCode "Fall 2019" false baseState).2 =
      some UpdateError.deleteCursorFieldError ∧
    (update_features FeatureRow.utProvCode "Fall 2019" false
        baseState).1.liveLayerAllocated = true := by
  decide

/-- Claim C1, evaluated against the source: no run of `update_features` ever
completes without error, so the claimed replacement post-state is never
reached.  Every run either fails a guard, or passes validation and then
raises: on an archiving run at line 82 (`insertRow` called on an
`arcpy.da.UpdateCursor`), and otherwise at line 157 (the where string passed
in the delete cursor's `field_names` slot). -/
theorem update_features_never_completes (pf : FeatureRow → String)
    (data_round : String) (archive : Bool) (st : GdbState) :
    (update_features pf data_round archive st).2 ≠ none := by
  unfold update_features
  repeat' split
  all_goals try simp [deleteStep]
  all_goals repeat' split
  all_goals simp [deleteStep]

/-- The sixteen uppercase hexadecimal digit characters. -/
def hexDigitsUpper : List Char :=
  ['0', '1', '2', '3', '4', '5', '6', '7', '8', '9', 'A', 'B', 'C', 'D', 'E', 'F']

/-- The uppercase hex character of one nibble. -/
def nibbleChar (i : Fin 16) : Char :=
  hexDigitsUpper.get (Fin.cast (by decide) i)

/-- Modelled from the spec: a 128-bit UUID in its RFC-4122 grouping — five
groups of 8, 4, 4, 4 and 12 nibbles.  The identifier assigner itself has no
code under `src/`; §4.1 of the specification describes it. -/
structure Uuid where
  g1 : List (Fin 16)
  g2 : List (Fin 16)
  g3 : List (Fin 16)
  g4 : List (Fin 16)
  g5 : List (Fin 16)
deriving DecidableEq, Repr

/-- The five groups have the RFC-4122 lengths 8-4-4-4-12. -/
def validUuid (u : Uuid) : Prop :=
  u.g1.length = 8 ∧ u.g2.length = 4 ∧ u.g3.length = 4 ∧ u.g4.length = 4 ∧
    u.g5.length = 12

instance (u : Uuid) : Decidable (validUuid u) :=
  inferInstanceAs (Decidable (_ ∧ _ ∧ _ ∧ _ ∧ _))

/-- The character list `{XXXXXXXX-XXXX-XXXX-XXXX-XXXXXXXXXXXX}` of a UUID. -/
def uuidChars (u : Uuid) : List Char :=
  '{' :: (u.g1.map nibbleChar ++ '-' :: (u.g2.map nibbleChar ++
    '-' :: (u.g3.map nibbleChar ++ '-' :: (u.g4.map nibbleChar ++
      '-' :: (u.g5.map nibbleChar ++ ['}'])))))

/-- Modelled from the spec: the brace-wrapped uppercase-hex rendering of a
UUID that the identifier assigner writes into the `Identifier` attribute. -/
def formatUuid (u : Uuid) : String :=
  String.mk (uuidChars u)

/-- A string has the `{XXXXXXXX-XXXX-XXXX-XXXX-XXXXXXXXXXXX}` format: braces
around five dash-separated groups of 8, 4, 4, 4 and 12 uppercase hex
characters. -/
def isBraceUuid (s : String) : Prop :=
  ∃ g1 g2 g3 g4 g5 : List Char,
    g1.length = 8 ∧ g2.length = 4 ∧ g3.length = 4 ∧ g4.length = 4 ∧
    g5.length = 12 ∧
    (∀ c ∈ g1 ++ g2 ++ g3 ++ g4 ++ g5, c ∈ hexDigitsUpper) ∧
    s.data = '{' :: (g1 ++ '-' :: (g2 ++ '-' :: (g3 ++ '-' :: (g4 ++
      '-' :: (g5 ++ ['}'])))))

/-- Modelled from the spec: a dataset as the identifier assigner sees it — a
schema (the attribute names) and the rows.  `src/` has no code for this
component. -/
structure RawDataset where
  schema : List String
  rows : List FeatureRow
deriving DecidableEq, Repr

/-- Modelled from the spec: the assigner walks the rows in order and writes
the rendering of the `i`-th freshly drawn UUID into the `i`-th row's
`Identifier` attribute. -/
def assignRows (fresh : Nat → Uuid) : Nat → List FeatureRow → List FeatureRow
  | _, [] => []
  | i, r :: rest =>
    { r with identifier := formatUuid (fresh i) } :: assignRows fresh (i + 1) rest

/-- Modelled from the spec (§4.1, Identifier Assigner — no code under
`src/`): add the `Identifier` attribute to the schema when absent, give every
row a freshly generated identifier, and return the count of records
updated. -/
def assign_identifiers (fresh : Nat → Uuid) (ds : RawDataset) : RawDataset × Nat :=
  ({ schema :=
       if "Identifier" ∈ ds.schema then ds.schema else ds.schema ++ ["Identifier"]
     rows := assignRows fresh 0 ds.rows },
   ds.rows.length)

theorem nibbleChar_injective : Function.Injective nibbleChar := by decide

theorem nibbleChar_mem_hex (i : Fin 16) : nibbleChar i ∈ hexDigitsUpper := by
  revert i
  decide

theorem formatUuid_ne_empty (u : Uuid) : formatUuid u ≠ "" := by
  intro h
  have hd := congrArg String.data h
  simp [formatUuid, uuidChars] at hd

/-- The rendering of a well-formed UUID has the brace-UUID format. -/
theorem isBraceUuid_formatUuid (u : Uuid) (hu : validUuid u) :
    isBraceUuid (formatUuid u) := by
  obtain ⟨h1, h2, h3, h4, h5⟩ := hu
  refine ⟨u.g1.map nibbleChar, u.g2.map nibbleChar, u.g3.map nibbleChar,
    u.g4.map nibbleChar, u.g5.map nibbleChar, by simp [h1], by simp [h2],
    by simp [h3], by simp [h4], by simp [h5], ?_, rfl⟩
  intro c hc
  simp only [List.mem_append, List.mem_map] at hc
  rcases hc with ((((⟨i, _, hi⟩ | ⟨i, _, hi⟩) | ⟨i, _, hi⟩) | ⟨i, _, hi⟩) | ⟨i, _, hi⟩) <;>
    exact hi ▸ nibbleChar_mem_hex i

/-- The rendering is injective on well-formed UUIDs. -/
theorem formatUuid_injOn (u v : Uuid) (hu : validUuid u) (hv : validUuid v)
    (h : formatUuid u = formatUuid v) : u = v := by
  obtain ⟨hu1, hu2, hu3, hu4, hu5⟩ := hu
  obtain ⟨hv1, hv2, hv3, hv4, hv5⟩ := hv
  have hmap := List.map_injective_iff.mpr nibbleChar_injective
  have hd : uuidChars u = uuidChars v := congrArg String.data h
  unfold uuidChars at hd
  injection hd with _ hd
  obtain ⟨hA, hd⟩ := List.append_inj hd (by simp [hu1, hv1])
  injection hd with _ hd
  obtain ⟨hB, hd⟩ := List.append_inj hd (by simp [hu2, hv2])
  injection hd with _ hd
  obtain ⟨hC, hd⟩ := List.append_inj hd (by simp [hu3, hv3])
  injection hd with _ hd
  obtain ⟨hD, hd⟩ := List.append_inj hd (by simp [hu4, hv4])
  injection hd with _ hd
  obtain ⟨hE, -⟩ := List.append_inj hd (by simp [hu5, hv5])
  cases u
  cases v
  simp only [Uuid.mk.injEq]
  exact ⟨hmap hA, hmap hB, hmap hC, hmap hD, hmap hE⟩

/-- Assignment preserves the number of rows. -/
theorem assignRows_length (fresh : Nat → Uuid) (i : Nat) (l : List FeatureRow) :
    (assignRows fresh i l).length = l.length := by
  induction l generalizing i with
  | nil => rfl
  | cons r rest ih => simp [assignRows, ih]

/-- The identifiers written by the assignment are the renderings of the drawn
UUIDs, indexed in order. -/
theorem assignRows_map_identifier (fresh : Nat → Uuid) (i : Nat)
    (l : List FeatureRow) :
    ((assignRows fresh i l).map fun r => r.identifier) =
      (List.range' i l.length).map fun j => formatUuid (fresh j) := by
  induction l generalizing i with
  | nil => rfl
  | cons r rest ih => simp [assignRows, List.range'_succ, ih]

/-- Claim C4 (the identifier assigner is modelled from §4.1 of the
specification; it has no code under `src/`): when the UUID source draws
well-formed, pairwise-distinct UUIDs for the dataset's indices, the assigner
adds the `Identifier` attribute to the schema when it was absent, keeps all N
rows and reports N records updated, gives every row a non-empty identifier of
the brace-wrapped uppercase-hex RFC-4122 format, and the N identifiers are
pairwise distinct. -/
theorem assign_identifiers_spec (fresh : Nat → Uuid) (ds : RawDataset)
    (hval : ∀ i, i < ds.rows.length → validUuid (fresh i))
    (hinj : ∀ i j, i < ds.rows.length → j < ds.rows.length →
      fresh i = fresh j → i = j) :
    "Identifier" ∈ (assign_identifiers fresh ds).1.schema ∧
    (assign_identifiers fresh ds).1.rows.length = ds.rows.length ∧
    (assign_identifiers fresh ds).2 = ds.rows.length ∧
    (∀ r ∈ (assign_identifiers fresh ds).1.rows,
      r.identifier ≠ "" ∧ isBraceUuid r.identifier) ∧
    ((assign_identifiers fresh ds).1.rows.map fun r => r.identifier).Nodup := by
  refine ⟨?_, assignRows_length fresh 0 ds.rows, rfl, ?_, ?_⟩
  · by_cases h : "Identifier" ∈ ds.schema
    · simp [assign_identifiers, h]
    · simp [assign_identifiers, h]
  · intro r hr
    have hid : r.identifier ∈
        ((assign_identifiers fresh ds).1.rows.map fun r => r.identifier) :=
      List.mem_map.mpr ⟨r, hr, rfl⟩
    rw [show (assign_identifiers fresh ds).1.rows = assignRows fresh 0 ds.rows
          from rfl,
        assignRows_map_identifier] at hid
    obtain ⟨j, hj, hjid⟩ := List.mem_map.mp hid
    rw [List.mem_range'_1] at hj
    have hjlt : j < ds.rows.length := by omega
    refine hjid ▸ ⟨formatUuid_ne_empty (fresh j),
      isBraceUuid_formatUuid (fresh j) (hval j hjlt)⟩
  · rw [show (assign_identifiers fresh ds).1.rows = assignRows fresh 0 ds.rows
          from rfl,
        assignRows_map_identifier]
    refine List.Nodup.map_on ?_ (List.nodup_range' 0 ds.rows.length)
    intro x hx y hy hxy
    rw [List.mem_range'_1] at hx hy
    have hxlt : x < ds.rows.length := by omega
    have hylt : y < ds.rows.length := by omega
    exact hinj x y hxlt hylt
      (formatUuid_injOn (fresh x) (fresh y) (hval x hxlt) (hval y hylt) hxy)

/-- A concrete all-zero UUID. -/
def uuidZ : Uuid :=
  ⟨List.replicate 8 0, List.replicate 4 0, List.replicate 4 0,
   List.replicate 4 0, List.replicate 12 0⟩

/-- A concrete all-one UUID, distinct from `uuidZ`. -/
def uuidO : Uuid :=
  ⟨List.replicate 8 1, List.replicate 4 1, List.replicate 4 1,
   List.replicate 4 1, List.replicate 12 1⟩

/-- A concrete UUID source drawing `uuidZ` then `uuidO`. -/
def sampleFresh : Nat → Uuid := fun n => if n = 0 then uuidZ else uuidO

/-- A concrete two-row dataset whose schema lacks the `Identifier`
attribute. -/
def sampleDataset : RawDataset :=
  { schema := ["SHAPE@", "UTProvCode"], rows := [rowA1, rowA2] }

/-- Witness for claim C4, on a two-row dataset without an `Identifier`
attribute and a source of two distinct well-formed UUIDs. -/
theorem assign_identifiers_spec_witness :
    "Identifier" ∈ (assign_identifiers sampleFresh sampleDataset).1.schema ∧
    (assign_identifiers sampleFresh sampleDataset).1.rows.length = 2 ∧
    ((assign_identifiers sampleFresh sampleDataset).1.rows.map
      fun r => r.identifier).Nodup := by
  have h := assign_identifiers_spec sampleFresh sampleDataset
    (by
      intro i hi
      have hi2 : i < 2 := hi
      interval_cases i <;> decide)
    (by
      intro i j hi hj hf
      have hi2 : i < 2 := hi
      have hj2 : j < 2 := hj
      interval_cases i <;> interval_cases j <;>
        first
        | rfl
        | exact absurd hf (by decide))
  exact ⟨h.1, h.2.1, h.2.2.2.2⟩

end BroadbandUpdate
